import Mathlib

/-!
Verification of the CartoGraph tier-gating, billing and webhook core.

This file gives a shallow embedding of the functions in
`backend/app/tier_gating.py`, `backend/app/stripe_billing.py`,
`backend/app/webhook_tasks.py` and `backend/app/api/routes/domains.py`,
and proves (or refutes) the specification claims about them.

Python values are modelled by the inductive type `PyVal`; Python dicts by
association lists whose lookup takes the first matching key (all dicts
built by the embedded code have pairwise distinct keys, so this agrees
with Python dict semantics).  Database sessions are modelled by explicit
state records, `datetime.now` by an explicit `now` field of an
environment record, and raised exceptions by `Except` / dedicated error
constructors.
-/

namespace CartoGraph

/-- Model of a Python runtime value (the subset the embedded code handles). -/
inductive PyVal where
  | none
  | bool (b : Bool)
  | int (n : Int)
  | str (s : String)
  | list (elems : List PyVal)
  | dict (items : List (String × PyVal))
deriving Repr

mutual

/-- Decidable equality for `PyVal`, written by hand because the nested
`List (String × PyVal)` argument defeats automatic derivation. -/
def PyVal.beq : PyVal → PyVal → Bool
  | PyVal.none, PyVal.none => true
  | PyVal.bool a, PyVal.bool b => a == b
  | PyVal.int a, PyVal.int b => a == b
  | PyVal.str a, PyVal.str b => a == b
  | PyVal.list a, PyVal.list b => PyVal.beqList a b
  | PyVal.dict a, PyVal.dict b => PyVal.beqItems a b
  | _, _ => false

/-- Element-wise equality test for lists of `PyVal`. -/
def PyVal.beqList : List PyVal → List PyVal → Bool
  | [], [] => true
  | a :: as1, b :: bs1 => PyVal.beq a b && PyVal.beqList as1 bs1
  | _, _ => false

/-- Element-wise equality test for dict item lists. -/
def PyVal.beqItems : List (String × PyVal) → List (String × PyVal) → Bool
  | [], [] => true
  | (k1, v1) :: as1, (k2, v2) :: bs1 =>
      k1 == k2 && PyVal.beq v1 v2 && PyVal.beqItems as1 bs1
  | _, _ => false

end

/-- Python truthiness of a value (`if blob:`). -/
def PyVal.truthy : PyVal → Bool
  | PyVal.none => false
  | PyVal.bool b => b
  | PyVal.int n => n != 0
  | PyVal.str s => s != ""
  | PyVal.list es => !es.isEmpty
  | PyVal.dict its => !its.isEmpty

/-- Model of a Python dict with string keys. -/
abbrev PyDict := List (String × PyVal)

/-- Model of Python `str.lower()` over the ASCII range (every identifier the
embedded code lowers — tier names, hostnames, UUID strings — is ASCII).
Implemented by structural recursion so that concrete inputs evaluate inside
the kernel. -/
def pyLower (s : String) : String :=
  String.mk (s.data.map Char.toLower)

/-- Splits a character list on `-` separators (structural stand-in for
`s.split("-")`). -/
def splitDashes : List Char → List (List Char)
  | [] => [[]]
  | c :: rest =>
      match splitDashes rest with
      | [] => [[]]
      | p :: ps => if c == '-' then [] :: p :: ps else (c :: p) :: ps

/-- Evaluates an `Except` to a Boolean success flag. -/
def isOkB {ε α : Type} : Except ε α → Bool
  | Except.ok _ => true
  | Except.error _ => false

/-- Model of `d.get(k)`: the stored value, or Python `None` when absent. -/
def pyGet (d : PyDict) (k : String) : PyVal :=
  match d.find? (fun kv => kv.1 == k) with
  | some kv => kv.2
  | Option.none => PyVal.none

/-- Membership-aware lookup used to state properties of an output dict:
`some v` when the key is present, `Option.none` when it is absent. -/
def findPy (d : PyDict) (k : String) : Option PyVal :=
  (d.find? (fun kv => kv.1 == k)).map (fun kv => kv.2)

/-! ## tier_gating.py -/

/-- Embedding of the `TierLimits` dataclass (tier_gating.py, lines 28-49). -/
structure TierLimits where
  tier : String
  max_lookups_per_month : Option Nat
  max_rows_per_view : Option Nat
  max_export_credits_per_month : Option Nat
  max_api_calls_per_month : Option Nat
  max_saved_lists : Option Nat
  max_alerts : Option Nat
  max_team_seats : Nat
  api_rate_limit_per_min : Option Nat
  historical_months : Option Nat
  allowed_field_groups : List String := []
  all_fields : Bool := false
  can_export_csv : Bool := false
  can_use_api : Bool := false
  can_use_webhooks : Bool := false
  can_white_label : Bool := false
  can_share_workspace : Bool := false
  daily_trending : Bool := false
deriving Repr, DecidableEq

/-- Embedding of the `TIER_LIMITS` dict (tier_gating.py, lines 52-148). -/
def TIER_LIMITS : List (String × TierLimits) := [
  ("free",
   { tier := "free"
     max_lookups_per_month := some 25
     max_rows_per_view := some 100
     max_export_credits_per_month := some 0
     max_api_calls_per_month := some 0
     max_saved_lists := some 1
     max_alerts := some 0
     max_team_seats := 1
     api_rate_limit_per_min := Option.none
     historical_months := Option.none
     allowed_field_groups := ["discovery_basic", "ecommerce_basic", "seo_basic", "meta_basic"]
     all_fields := false
     can_export_csv := false
     can_use_api := false
     can_use_webhooks := false }),
  ("starter",
   { tier := "starter"
     max_lookups_per_month := some 500
     max_rows_per_view := some 5000
     max_export_credits_per_month := some 50
     max_api_calls_per_month := some 0
     max_saved_lists := some 5
     max_alerts := some 5
     max_team_seats := 1
     api_rate_limit_per_min := Option.none
     historical_months := Option.none
     allowed_field_groups :=
       ["discovery_basic", "ecommerce_basic", "seo_basic", "meta_basic",
        "ecommerce", "seo_metrics", "technical_layer", "contact_social"]
     all_fields := false
     can_export_csv := true
     can_use_api := false
     can_use_webhooks := false }),
  ("professional",
   { tier := "professional"
     max_lookups_per_month := Option.none
     max_rows_per_view := some 50000
     max_export_credits_per_month := some 500
     max_api_calls_per_month := some 10000
     max_saved_lists := some 25
     max_alerts := some 50
     max_team_seats := 3
     api_rate_limit_per_min := some 100
     historical_months := some 3
     allowed_field_groups := []
     all_fields := true
     can_export_csv := true
     can_use_api := true
     can_use_webhooks := true
     daily_trending := true }),
  ("business",
   { tier := "business"
     max_lookups_per_month := Option.none
     max_rows_per_view := some 250000
     max_export_credits_per_month := some 2000
     max_api_calls_per_month := some 50000
     max_saved_lists := Option.none
     max_alerts := Option.none
     max_team_seats := 10
     api_rate_limit_per_min := some 500
     historical_months := some 12
     allowed_field_groups := []
     all_fields := true
     can_export_csv := true
     can_use_api := true
     can_use_webhooks := true
     can_white_label := true
     can_share_workspace := true
     daily_trending := true }),
  ("enterprise",
   { tier := "enterprise"
     max_lookups_per_month := Option.none
     max_rows_per_view := Option.none
     max_export_credits_per_month := Option.none
     max_api_calls_per_month := Option.none
     max_saved_lists := Option.none
     max_alerts := Option.none
     max_team_seats := 999
     api_rate_limit_per_min := Option.none
     historical_months := Option.none
     allowed_field_groups := []
     all_fields := true
     can_export_csv := true
     can_use_api := true
     can_use_webhooks := true
     can_white_label := true
     can_share_workspace := true
     daily_trending := true })]

/-- Lookup in `TIER_LIMITS` (`TIER_LIMITS.get(name)` / `name in TIER_LIMITS`). -/
def tierLimitsGet (name : String) : Option TierLimits :=
  (TIER_LIMITS.find? (fun kv => kv.1 == name)).map (fun kv => kv.2)

/-- Embedding of the `_ALWAYS_VISIBLE` set (tier_gating.py, lines 155-156),
as a list in the source's literal order (the keys are pairwise distinct, so
the iteration order of the Python set does not affect the resulting dict). -/
def ALWAYS_VISIBLE : List String :=
  ["domain_id", "domain", "country", "tld", "status",
   "first_seen_at", "last_updated_at", "schema_version"]

/-- Per-tier visibility entry of one field group: tier name to either an
allow-list of sub-keys or Python `None` (all sub-keys allowed). -/
abbrev TierMap := List (String × Option (List String))

/-- Model of `tier_map.get(tier_lower)`: Python collapses a missing key and a
stored `None` to the same `None` result. -/
def tmGet (tm : TierMap) (t : String) : Option (List String) :=
  match tm.find? (fun kv => kv.1 == t) with
  | some kv => kv.2
  | Option.none => Option.none

/-- Embedding of the `_FIELD_GATING` table (tier_gating.py, lines 159-231). -/
def FIELD_GATING : List (String × TierMap) := [
  ("discovery",
   [("free", some ["method", "first_seen", "last_verified"]),
    ("starter", some ["method", "first_seen", "last_verified", "intent_type"]),
    ("professional", Option.none), ("business", Option.none), ("enterprise", Option.none)]),
  ("ecommerce",
   [("free", some ["platform"]),
    ("starter", some ["platform", "platform_confidence", "product_count_estimate",
                      "category_primary", "currency"]),
    ("professional", Option.none), ("business", Option.none), ("enterprise", Option.none)]),
  ("seo_metrics",
   [("free", some ["domain_rating"]),
    ("starter", some ["domain_rating", "domain_authority", "organic_traffic_estimate",
                      "referring_domains_count", "organic_traffic_trend"]),
    ("professional", Option.none), ("business", Option.none), ("enterprise", Option.none)]),
  ("intent_layer",
   [("free", Option.none),
    ("starter", some ["commercial_intent_score"]),
    ("professional", Option.none), ("business", Option.none), ("enterprise", Option.none)]),
  ("serp_intelligence",
   [("free", Option.none),
    ("starter", some ["serp_features"]),
    ("professional", Option.none), ("business", Option.none), ("enterprise", Option.none)]),
  ("technical_layer",
   [("free", Option.none),
    ("starter", some ["tech_stack"]),
    ("professional", Option.none), ("business", Option.none), ("enterprise", Option.none)]),
  ("contact",
   [("free", Option.none),
    ("starter", some ["social_profiles", "has_contact_form"]),
    ("professional", Option.none), ("business", Option.none), ("enterprise", Option.none)]),
  ("meta",
   [("free", some ["ssl_valid", "mobile_friendly", "page_speed_score"]),
    ("starter", some ["ssl_valid", "mobile_friendly", "page_speed_score", "language", "title"]),
    ("professional", Option.none), ("business", Option.none), ("enterprise", Option.none)]),
  ("change_tracking",
   [("free", Option.none), ("starter", Option.none),
    ("professional", some ["mom_traffic_delta", "trending_score"]),
    ("business", Option.none), ("enterprise", Option.none)]),
  ("marketplace_overlap",
   [("free", Option.none), ("starter", Option.none), ("professional", Option.none),
    ("business", Option.none), ("enterprise", Option.none)]),
  ("paid_ads_presence",
   [("free", Option.none), ("starter", Option.none), ("professional", Option.none),
    ("business", Option.none), ("enterprise", Option.none)]),
  ("confidence_score",
   [("free", some ["value"]), ("starter", Option.none), ("professional", Option.none),
    ("business", Option.none), ("enterprise", Option.none)]),
  ("pipeline",
   [("free", Option.none), ("starter", Option.none), ("professional", Option.none),
    ("business", Option.none), ("enterprise", Option.none)]),
  ("ai_summary",
   [("free", Option.none), ("starter", Option.none), ("professional", Option.none),
    ("business", Option.none), ("enterprise", Option.none)])]

/-- Embedding of `_HIDDEN_FOR_FREE` (tier_gating.py, lines 234-238). -/
def HIDDEN_FOR_FREE : List String :=
  ["intent_layer", "serp_intelligence", "technical_layer", "contact",
   "change_tracking", "marketplace_overlap", "paid_ads_presence",
   "pipeline", "ai_summary"]

/-- Embedding of `_HIDDEN_FOR_STARTER` (tier_gating.py, line 239). -/
def HIDDEN_FOR_STARTER : List String := ["change_tracking"]

/-- Embedding of `_filter_jsonb` (tier_gating.py, lines 247-253).  Returns
`Option.none` where Python would raise (a non-dict, non-None blob filtered
through an allow-list has no `.items()`). -/
def filter_jsonb (blob : PyVal) (allowed_keys : Option (List String)) : Option PyVal :=
  match blob, allowed_keys with
  | PyVal.none, _ => some PyVal.none
  | b, Option.none => some b
  | PyVal.dict items, some ks =>
      some (PyVal.dict (items.filter (fun kv => ks.contains kv.1)))
  | _, some _ => Option.none

/-- Tier normalisation performed at the top of `mask_domain_by_tier`
(tier_gating.py, lines 264-266): lower-case, and fall back to `"free"` when
the name is not in the tier catalogue. -/
def tierNorm (tier : String) : String :=
  let tier_lower := pyLower tier
  if (tierLimitsGet tier_lower).isSome then tier_lower else "free"

/-- Entries contributed to the result dict by one field group of the loop
body of `mask_domain_by_tier` (tier_gating.py, lines 275-296). -/
def maskGroup (domain_data : PyDict) (tier_lower : String) (gp : String × TierMap) :
    Option PyDict :=
  let group := gp.1
  let allowed_keys := tmGet gp.2 tier_lower
  let blob := pyGet domain_data group
  if tier_lower == "free" && HIDDEN_FOR_FREE.contains group then
    some [(group, PyVal.none), (group ++ "_gated", PyVal.bool true)]
  else if tier_lower == "starter" && HIDDEN_FOR_STARTER.contains group then
    some [(group, PyVal.none), (group ++ "_gated", PyVal.bool true)]
  else
    match allowed_keys with
    | Option.none => some [(group, blob)]
    | some ks =>
        match filter_jsonb blob (some ks) with
        | Option.none => Option.none
        | some filtered =>
            some ((group, filtered) ::
              (if blob.truthy && (match blob with
                  | PyVal.dict items => items.any (fun kv => !(ks.contains kv.1))
                  | _ => false) then
                 [(group ++ "_gated", PyVal.bool true)]
               else []))

/-- The loop over `_FIELD_GATING.items()` in `mask_domain_by_tier`; a raise
in any iteration aborts the whole call. -/
def maskGroups (domain_data : PyDict) (tier_lower : String) :
    List (String × TierMap) → Option PyDict
  | [] => some []
  | gp :: rest =>
      match maskGroup domain_data tier_lower gp, maskGroups domain_data tier_lower rest with
      | some es, some rest2 => some (es ++ rest2)
      | _, _ => Option.none

/-- Embedding of `mask_domain_by_tier` (tier_gating.py, lines 256-298).
Returns `Option.none` where Python would raise. -/
def mask_domain_by_tier (domain_data : PyDict) (tier : String) : Option PyDict :=
  let tier_lower := tierNorm tier
  let always := ALWAYS_VISIBLE.map (fun k => (k, pyGet domain_data k))
  match maskGroups domain_data tier_lower FIELD_GATING with
  | some parts => some (always ++ parts)
  | Option.none => Option.none

/-- Model of a raised `fastapi.HTTPException`: the status code together with
the machine-readable fields of its `detail` dict (fields absent from a given
detail dict are `Option.none`). -/
structure HTTPExceptionModel where
  status_code : Nat
  code : String
  feature : Option String := Option.none
  limit : Option Nat := Option.none
  used : Option Nat := Option.none
  requested : Option Nat := Option.none
  current_tier : Option String := Option.none
deriving Repr, DecidableEq

/-- Embedding of the `TierGate` helper (tier_gating.py, lines 306-311). -/
structure TierGate where
  tier : String
  limits : TierLimits
deriving Repr, DecidableEq

/-- Embedding of `TierGate.__init__`: lower-case the tier name and fall back
to the free tier's limits when it is unknown. -/
def TierGate.init (tier : String) : TierGate :=
  let t := pyLower tier
  { tier := t
    limits := (tierLimitsGet t).getD
      { tier := "free", max_lookups_per_month := some 25, max_rows_per_view := some 100,
        max_export_credits_per_month := some 0, max_api_calls_per_month := some 0,
        max_saved_lists := some 1, max_alerts := some 0, max_team_seats := 1,
        api_rate_limit_per_min := Option.none, historical_months := Option.none,
        allowed_field_groups := ["discovery_basic", "ecommerce_basic", "seo_basic", "meta_basic"],
        all_fields := false, can_export_csv := false, can_use_api := false,
        can_use_webhooks := false } }

/-- Model of `getattr(self.limits, feature, False)` over the feature flags
named by `require_feature`'s docstring. -/
def TierLimits.featureFlag (l : TierLimits) (feature : String) : Bool :=
  if feature == "can_export_csv" then l.can_export_csv
  else if feature == "can_use_api" then l.can_use_api
  else if feature == "can_use_webhooks" then l.can_use_webhooks
  else if feature == "can_white_label" then l.can_white_label
  else if feature == "can_share_workspace" then l.can_share_workspace
  else if feature == "daily_trending" then l.daily_trending
  else false

/-- Embedding of `TierGate.require_feature` (tier_gating.py, lines 313-327). -/
def TierGate.require_feature (g : TierGate) (feature : String) :
    Except HTTPExceptionModel Unit :=
  if !(g.limits.featureFlag feature) then
    Except.error { status_code := 403, code := "feature_gated",
                   feature := some feature, current_tier := some g.tier }
  else Except.ok ()

/-- Embedding of `TierGate.check_row_limit` (tier_gating.py, lines 329-341). -/
def TierGate.check_row_limit (g : TierGate) (requested : Nat) :
    Except HTTPExceptionModel Unit :=
  match g.limits.max_rows_per_view with
  | some limit =>
      if requested > limit then
        Except.error { status_code := 403, code := "row_limit_exceeded",
                       limit := some limit, requested := some requested,
                       current_tier := some g.tier }
      else Except.ok ()
  | Option.none => Except.ok ()

/-- Embedding of `TierGate.check_lookup_quota` (tier_gating.py, lines 343-357). -/
def TierGate.check_lookup_quota (g : TierGate) (used : Nat) :
    Except HTTPExceptionModel Unit :=
  match g.limits.max_lookups_per_month with
  | some limit =>
      if used ≥ limit then
        Except.error { status_code := 429, code := "lookup_quota_exceeded",
                       limit := some limit, used := some used,
                       current_tier := some g.tier }
      else Except.ok ()
  | Option.none => Except.ok ()

/-- Embedding of `TierGate.check_export_credits` (tier_gating.py, lines
359-372); `requested` defaults to 1 at Python call sites. -/
def TierGate.check_export_credits (g : TierGate) (used : Nat) (requested : Nat) :
    Except HTTPExceptionModel Unit :=
  match TierGate.require_feature g "can_export_csv" with
  | Except.error e => Except.error e
  | Except.ok _ =>
  match g.limits.max_export_credits_per_month with
  | some limit =>
      if used + requested > limit then
        Except.error { status_code := 429, code := "export_credits_exhausted",
                       limit := some limit, used := some used,
                       current_tier := some g.tier }
      else Except.ok ()
  | Option.none => Except.ok ()

/-- Embedding of `TierGate.check_alert_limit` (tier_gating.py, lines 374-385). -/
def TierGate.check_alert_limit (g : TierGate) (current_count : Nat) :
    Except HTTPExceptionModel Unit :=
  match g.limits.max_alerts with
  | some limit =>
      if current_count ≥ limit then
        Except.error { status_code := 403, code := "alert_limit_reached",
                       limit := some limit, current_tier := some g.tier }
      else Except.ok ()
  | Option.none => Except.ok ()

/-! ## stripe_billing.py -/

/-- Embedding of the `Workspace` model columns touched by billing and the
domain routes (models.py, lines 244-266).  Identifiers are canonical
lower-case UUID strings. -/
structure Workspace where
  workspace_id : String
  owner_id : String := ""
  tier : String := "free"
  domain_lookups_used : Nat := 0
  export_credits_used : Nat := 0
  api_calls_used : Nat := 0
  billing_cycle_start : Int := 0
  stripe_customer_id : Option String := Option.none
  stripe_subscription_id : Option String := Option.none
  stripe_subscription_status : Option String := Option.none
  stripe_price_id : Option String := Option.none
  founding_member : Bool := false
deriving Repr, DecidableEq

/-- Persistent database state seen by the billing webhook handlers: the
workspace table and the single-row `founding_member_count` table (the
singleton row is assumed present, as created by the migration). -/
structure BillingDB where
  workspaces : List Workspace
  founding_member_count : Nat
deriving Repr, DecidableEq

/-- Embedding of `get_founding_member_count` (stripe_billing.py, lines 260-265). -/
def get_founding_member_count (db : BillingDB) : Nat :=
  db.founding_member_count

/-- Embedding of `increment_founding_member_count` (stripe_billing.py,
lines 268-276). -/
def increment_founding_member_count (db : BillingDB) : BillingDB :=
  { db with founding_member_count := db.founding_member_count + 1 }

/-- Commit of a mutated workspace row (`session.add(ws); session.commit()`). -/
def commitWorkspace (db : BillingDB) (ws : Workspace) : BillingDB :=
  { db with workspaces :=
      db.workspaces.map (fun w => if w.workspace_id == ws.workspace_id then ws else w) }

/-- Checks one character of a UUID string for hex-digit-ness. -/
def isHexChar (c : Char) : Bool :=
  c.isDigit || ("abcdef".toList.contains c)

/-- Model of `uuid.UUID(s)`: `some` canonical form for a well-formed
8-4-4-4-12 hyphenated hex string (after lower-casing), `Option.none` where
Python raises `ValueError`.  (Python also accepts some alternative spellings
such as braced or unhyphenated forms; those do not occur in this system's
identifiers and are not modelled.) -/
def pyUUID (s : String) : Option String :=
  let t := pyLower s
  let parts := splitDashes t.data
  if parts.map List.length == [8, 4, 4, 4, 12] &&
     parts.all (fun p => p.all isHexChar) then
    some t
  else Option.none

/-- Model of `session.get(Workspace, uid)`. -/
def findWorkspaceById (db : BillingDB) (uid : String) : Option Workspace :=
  db.workspaces.find? (fun w => w.workspace_id == uid)

/-- Model of Python's `a or b` over optional strings: an empty string is
falsy, like `None`. -/
def pyOrStr (a b : Option String) : Option String :=
  match a with
  | some s => if s == "" then b else some s
  | Option.none => b

/-- Falsiness test for an optional string (`if not workspace_id:`). -/
def strFalsy (a : Option String) : Bool :=
  match a with
  | some s => s == ""
  | Option.none => true

/-- Fields of the `event["data"]["object"]` dict that the five webhook
handlers read (absent dict keys are `Option.none`). -/
structure StripeEventObject where
  client_reference_id : Option String := Option.none
  metadata : Option (List (String × String)) := Option.none
  subscription : Option String := Option.none
  customer : Option String := Option.none
  id : Option String := Option.none
  status : Option String := Option.none
  items_price_id : Option String := Option.none
deriving Repr, DecidableEq

/-- Model of a Stripe webhook event: its type, payload object, and `created`
timestamp (carried by every Stripe event; the handlers never read it). -/
structure StripeEvent where
  type : String
  data_object : StripeEventObject
  created : Int := 0
deriving Repr, DecidableEq

/-- External context of the billing handlers: the price-to-tier lookup table,
the Stripe subscription-to-price resolution (`client.subscriptions.retrieve`),
the founding-member cap, and the processing-time clock (`datetime.now`). -/
structure BillingEnv where
  price_to_tier : List (String × String)
  subscription_price : String → String
  founding_member_cap : Nat
  now : Int

/-- Result dict returned by the webhook handlers; keys absent from a given
handler's dict are `Option.none`. -/
structure WebhookResult where
  action : String
  reason : Option String := Option.none
  workspace_id : Option String := Option.none
  tier : Option String := Option.none
  event_type : Option String := Option.none
deriving Repr, DecidableEq

/-- Embedding of `_handle_checkout_completed` (stripe_billing.py, lines
327-368).  `Except.error` models an uncaught Python exception. -/
def handle_checkout_completed (env : BillingEnv) (data : StripeEventObject)
    (db : BillingDB) : Except String (WebhookResult × BillingDB) :=
  let workspace_id :=
    pyOrStr data.client_reference_id ((data.metadata.getD []).lookup "workspace_id")
  if strFalsy workspace_id then
    Except.ok ({ action := "skipped", reason := some "no workspace_id in session" }, db)
  else
    let wid := workspace_id.getD ""
    match pyUUID wid with
    | Option.none => Except.error "ValueError"
    | some uid =>
      match findWorkspaceById db uid with
      | Option.none =>
          Except.ok ({ action := "skipped", reason := some "workspace_not_found" }, db)
      | some ws0 =>
        let subscription_id := data.subscription
        let customer_id := data.customer
        let founding := (data.metadata.getD []).lookup "founding_member" == some "true"
        let ws1 := { ws0 with
          stripe_customer_id := customer_id,
          stripe_subscription_id := subscription_id,
          stripe_subscription_status := some "active" }
        let step :=
          if founding then
            let current := get_founding_member_count db
            if current < env.founding_member_cap then
              ({ ws1 with founding_member := true }, increment_founding_member_count db)
            else (ws1, db)
          else (ws1, db)
        let ws2 := step.1
        let db2 := step.2
        let ws3 :=
          match subscription_id with
          | some sid =>
              if sid == "" then ws2
              else
                let price_id := env.subscription_price sid
                { ws2 with
                  stripe_price_id := some price_id,
                  tier := ((env.price_to_tier.lookup price_id).getD "free") }
          | Option.none => ws2
        Except.ok ({ action := "checkout_activated", workspace_id := some wid },
                   commitWorkspace db2 ws3)

/-- Embedding of `_handle_subscription_updated` (stripe_billing.py, lines
371-391).  The price is read by direct indexing after the workspace lookup,
so a payload without it raises (`Except.error`). -/
def handle_subscription_updated (env : BillingEnv) (data : StripeEventObject)
    (db : BillingDB) : Except String (WebhookResult × BillingDB) :=
  let sub_id := data.id
  match db.workspaces.find? (fun w => w.stripe_subscription_id == sub_id) with
  | Option.none =>
      Except.ok ({ action := "skipped", reason := some "workspace_not_found" }, db)
  | some ws0 =>
    match data.items_price_id with
    | Option.none => Except.error "KeyError"
    | some price_id =>
      let ws1 := { ws0 with
        stripe_price_id := some price_id,
        tier := ((env.price_to_tier.lookup price_id).getD "free"),
        stripe_subscription_status := some (data.status.getD "active") }
      Except.ok ({ action := "tier_updated", tier := some ws1.tier },
                 commitWorkspace db ws1)

/-- Embedding of `_handle_subscription_deleted` (stripe_billing.py, lines
394-414). -/
def handle_subscription_deleted (data : StripeEventObject) (db : BillingDB) :
    Except String (WebhookResult × BillingDB) :=
  let sub_id := data.id
  match db.workspaces.find? (fun w => w.stripe_subscription_id == sub_id) with
  | Option.none =>
      Except.ok ({ action := "skipped", reason := some "workspace_not_found" }, db)
  | some ws0 =>
    let ws1 := { ws0 with
      tier := "free",
      stripe_subscription_status := some "cancelled",
      stripe_subscription_id := Option.none,
      stripe_price_id := Option.none }
    Except.ok ({ action := "downgraded_to_free" }, commitWorkspace db ws1)

/-- Embedding of `_handle_invoice_paid` (stripe_billing.py, lines 417-438):
reset the three monthly counters and set the cycle start to `datetime.now`. -/
def handle_invoice_paid (env : BillingEnv) (data : StripeEventObject)
    (db : BillingDB) : Except String (WebhookResult × BillingDB) :=
  let customer_id := data.customer
  match db.workspaces.find? (fun w => w.stripe_customer_id == customer_id) with
  | Option.none =>
      Except.ok ({ action := "skipped", reason := some "workspace_not_found" }, db)
  | some ws0 =>
    let ws1 := { ws0 with
      domain_lookups_used := 0,
      export_credits_used := 0,
      api_calls_used := 0,
      billing_cycle_start := env.now }
    Except.ok ({ action := "usage_reset" }, commitWorkspace db ws1)

/-- Embedding of `_handle_invoice_payment_failed` (stripe_billing.py, lines
441-457). -/
def handle_invoice_payment_failed (data : StripeEventObject) (db : BillingDB) :
    Except String (WebhookResult × BillingDB) :=
  let customer_id := data.customer
  match db.workspaces.find? (fun w => w.stripe_customer_id == customer_id) with
  | Option.none =>
      Except.ok ({ action := "skipped", reason := some "workspace_not_found" }, db)
  | some ws0 =>
    let ws1 := { ws0 with stripe_subscription_status := some "past_due" }
    Except.ok ({ action := "marked_past_due" }, commitWorkspace db ws1)

/-- Embedding of `process_webhook_event` (stripe_billing.py, lines 291-324). -/
def process_webhook_event (env : BillingEnv) (event : StripeEvent) (db : BillingDB) :
    Except String (WebhookResult × BillingDB) :=
  let data := event.data_object
  if event.type == "checkout.session.completed" then
    handle_checkout_completed env data db
  else if event.type == "customer.subscription.updated" then
    handle_subscription_updated env data db
  else if event.type == "customer.subscription.deleted" then
    handle_subscription_deleted data db
  else if event.type == "invoice.paid" then
    handle_invoice_paid env data db
  else if event.type == "invoice.payment_failed" then
    handle_invoice_payment_failed data db
  else
    Except.ok ({ action := "ignored", event_type := some event.type }, db)

/-! ## webhook_tasks.py -/

/-- Embedding of the `WebhookEndpoint` model columns read by delivery
(models.py, lines 303-315). -/
structure WebhookEndpoint where
  webhook_id : String
  url : String
  secret : String
  event_types : Option (List String) := Option.none
  is_active : Bool := true
deriving Repr, DecidableEq

/-- External context of `deliver_webhook`: the endpoint table, the HTTP POST
transport (`some status` for a response, `Option.none` for a transport-level
error), the JSON serialiser, the HMAC-SHA256 hex digest, and the freshly
generated delivery id / timestamp. -/
structure WebhookEnv where
  endpoints : List WebhookEndpoint
  http_post : String → String → Option Nat
  dumps : PyVal → String
  hmac_sha256_hex : String → String → String
  delivery_id : String
  delivered_at : String

/-- Result summary dict of a webhook delivery. -/
structure DeliveryResult where
  status : String
  reason : Option String := Option.none
  http_status : Option Nat := Option.none
  delivery_id : Option String := Option.none
  delivered_at : Option String := Option.none
deriving Repr, DecidableEq

/-- Outcome of one `deliver_webhook` task run: a returned result dict, a
Celery retry raised by `self.retry`, or an uncaught Python exception. -/
inductive DeliveryOutcome where
  | result (r : DeliveryResult)
  | retry (reason : String)
  | pyError (msg : String)
deriving Repr, DecidableEq

/-- One outbound HTTP POST performed by a delivery: url, body, signature
header value. -/
structure HttpCall where
  url : String
  body : String
  signature : String
deriving Repr, DecidableEq

/-- Embedding of `_sign_payload` (webhook_tasks.py, lines 34-37). -/
def sign_payload (env : WebhookEnv) (secret : String) (raw_body : String) : String :=
  "sha256=" ++ env.hmac_sha256_hex secret raw_body

/-- Embedding of `deliver_webhook` (webhook_tasks.py, lines 47-130).  The
second component records every HTTP request the run performed, so that
"no HTTP call made" is the statement that it is `[]`.  A response status
of 400 or above makes `raise_for_status` throw, which the task converts
into a retry; so does a transport-level request error. -/
def deliver_webhook (env : WebhookEnv) (webhook_id : String) (event_type : String)
    (payload : PyVal) : DeliveryOutcome × List HttpCall :=
  match pyUUID webhook_id with
  | Option.none => (DeliveryOutcome.pyError "ValueError", [])
  | some uid =>
    match env.endpoints.find? (fun e => e.webhook_id == uid) with
    | Option.none =>
        (DeliveryOutcome.result { status := "skipped", reason := some "endpoint_not_found" }, [])
    | some endpoint =>
      if !endpoint.is_active then
        (DeliveryOutcome.result { status := "skipped", reason := some "endpoint_inactive" }, [])
      else
        let event_types := endpoint.event_types.getD []
        if !event_types.isEmpty && !event_types.contains event_type then
          (DeliveryOutcome.result
            { status := "skipped", reason := some "event_type_not_subscribed" }, [])
        else
          let body := env.dumps (PyVal.dict
            [("event", PyVal.str event_type),
             ("delivery_id", PyVal.str env.delivery_id),
             ("data", payload)])
          let signature := sign_payload env endpoint.secret body
          let call : HttpCall := { url := endpoint.url, body := body, signature := signature }
          match env.http_post endpoint.url body with
          | some code =>
              if code < 400 then
                (DeliveryOutcome.result
                  { status := "delivered", http_status := some code,
                    delivery_id := some env.delivery_id,
                    delivered_at := some env.delivered_at }, [call])
              else (DeliveryOutcome.retry "http_status_error", [call])
          | Option.none => (DeliveryOutcome.retry "request_error", [call])

/-! ## api/routes/domains.py -/

/-- One row of the domain table, as the route sees it: primary key, hostname,
and the full `DomainPublic` dump handed to the masking engine. -/
structure DomainRow where
  domain_id : String
  domain : String
  data : PyDict
deriving Repr

/-- Persistent state read and written by the two lookup routes. -/
structure AppState where
  workspaces : List Workspace
  domains : List DomainRow
deriving Repr

/-- Embedding of `_get_caller_workspace` (domains.py, lines 39-43): the first
workspace owned by the user. -/
def get_caller_workspace (st : AppState) (user_id : String) : Option Workspace :=
  st.workspaces.find? (fun w => w.owner_id == user_id)

/-- Outcome of one route handler run: a response body, an HTTPException, or
an uncaught Python exception. -/
inductive HandlerOut where
  | ok (body : PyDict)
  | httpError (e : HTTPExceptionModel)
  | crash (msg : String)
deriving Repr

/-- The 404 raised by both lookup routes; its string detail is carried in the
`code` field. -/
def domainNotFound : HTTPExceptionModel :=
  { status_code := 404, code := "Domain not found" }

/-- Increment of the caller workspace's monthly lookup counter
(`ws.domain_lookups_used += 1; session.add(ws); session.commit()`). -/
def bumpLookups (st : AppState) (ws : Workspace) : AppState :=
  { st with workspaces :=
      st.workspaces.map (fun w =>
        if w.workspace_id == ws.workspace_id then
          { w with domain_lookups_used := w.domain_lookups_used + 1 }
        else w) }

/-- Common body of `get_domain` and `get_domain_by_name` after the domain
record has been looked up (domains.py, lines 224-244 and 257-277): quota
check, 404, counter increment, masking. -/
def lookupDomainCommon (st : AppState) (user_id : String)
    (findDomain : List DomainRow → Option DomainRow) : HandlerOut × AppState :=
  let ws? := get_caller_workspace st user_id
  let tier := match ws? with
    | some ws => ws.tier
    | Option.none => "free"
  let gate := TierGate.init tier
  let quota : Except HTTPExceptionModel Unit :=
    match ws? with
    | some ws => TierGate.check_lookup_quota gate ws.domain_lookups_used
    | Option.none => Except.ok ()
  match quota with
  | Except.error e => (HandlerOut.httpError e, st)
  | Except.ok _ =>
    match findDomain st.domains with
    | Option.none => (HandlerOut.httpError domainNotFound, st)
    | some dom =>
      let st2 :=
        match ws? with
        | some ws => bumpLookups st ws
        | Option.none => st
      match mask_domain_by_tier dom.data tier with
      | some masked => (HandlerOut.ok masked, st2)
      | Option.none => (HandlerOut.crash "AttributeError", st2)

/-- Embedding of `get_domain` (domains.py, lines 213-244). -/
def get_domain (st : AppState) (user_id : String) (domain_id : String) :
    HandlerOut × AppState :=
  lookupDomainCommon st user_id
    (fun rows => rows.find? (fun r => r.domain_id == domain_id))

/-- Embedding of `get_domain_by_name` (domains.py, lines 247-277). -/
def get_domain_by_name (st : AppState) (user_id : String) (domain_name : String) :
    HandlerOut × AppState :=
  lookupDomainCommon st user_id
    (fun rows => rows.find? (fun r => r.domain == pyLower domain_name))

/-! ## Specification-side vocabulary for the masking claims -/

/-- The five tier names of the tier catalogue. -/
def knownTierNames : List String :=
  ["free", "starter", "professional", "business", "enterprise"]

/-- Names of the declared field groups, in table order. -/
def GroupNames : List String := FIELD_GATING.map (fun gp => gp.1)

/-- A field group is declared completely hidden at a tier exactly when the
code's hidden-set check fires (tier_gating.py, lines 280-287). -/
def hiddenAt (t g : String) : Bool :=
  (t == "free" && HIDDEN_FOR_FREE.contains g) ||
  (t == "starter" && HIDDEN_FOR_STARTER.contains g)

/-- A value is a well-typed field-group value when it is Python `None` or a
dict; anything else makes the allow-list filter raise. -/
def isNoneOrDict : PyVal → Bool
  | PyVal.none => true
  | PyVal.dict _ => true
  | _ => false

/-- An input record is well typed when each declared field group holds
`None`, a dict, or nothing. -/
def WellTypedRecord (d : PyDict) : Bool :=
  FIELD_GATING.all (fun gp => isNoneOrDict (pyGet d gp.1))

/-- The source blob contains at least one key outside the allow-list. -/
def keyOutside (blob : PyVal) (ks : List String) : Bool :=
  match blob with
  | PyVal.dict items => items.any (fun kv => !(ks.contains kv.1))
  | _ => false

/-- The specification's allow-list projection: only the allow-listed
sub-keys present in the source blob; `None` when there is no blob. -/
def allowedProjection (blob : PyVal) (ks : List String) : PyVal :=
  match blob with
  | PyVal.dict items => PyVal.dict (items.filter (fun kv => ks.contains kv.1))
  | _ => PyVal.none

/-- Total description of the dict entries one field group contributes, used
to reason about `maskGroup` on well-typed records. -/
def maskGroupF (d : PyDict) (t : String) (gp : String × TierMap) : PyDict :=
  let group := gp.1
  let blob := pyGet d group
  if hiddenAt t group then
    [(group, PyVal.none), (group ++ "_gated", PyVal.bool true)]
  else
    match tmGet gp.2 t with
    | Option.none => [(group, blob)]
    | some ks =>
        (group, allowedProjection blob ks) ::
          (if keyOutside blob ks then [(group ++ "_gated", PyVal.bool true)] else [])

/-! ## Concrete inputs used by counterexamples and witnesses -/

/-- Billing environment with the founding-member price mapped to the
professional tier and 200 promotional seats. -/
def c1Env : BillingEnv :=
  { price_to_tier := [("price_pro_founding", "professional")]
    subscription_price := fun _ => "price_pro_founding"
    founding_member_cap := 200
    now := 0 }

/-- Workspace id of the replay scenario. -/
def c1WsId : String := "00000000-0000-0000-0000-000000000001"

/-- Fresh free-tier workspace awaiting checkout. -/
def c1Ws : Workspace := { workspace_id := c1WsId }

/-- A founding-member `checkout.session.completed` event for that workspace. -/
def c1Event : StripeEvent :=
  { type := "checkout.session.completed"
    data_object :=
      { client_reference_id := some c1WsId
        metadata := some [("workspace_id", c1WsId), ("founding_member", "true")]
        subscription := some "sub_1"
        customer := some "cus_1" } }

/-- Initial state: one workspace, founding counter at zero. -/
def c1DB : BillingDB := { workspaces := [c1Ws], founding_member_count := 0 }

/-- Applies the checkout event once, keeping the resulting state (identity on
an uncaught exception). -/
def c1Step (db : BillingDB) : BillingDB :=
  match process_webhook_event c1Env c1Event db with
  | Except.ok p => p.2
  | Except.error _ => db

/-- Workspace of the invoice-paid scenario, with non-zero usage and an old
cycle start. -/
def c7Ws : Workspace :=
  { workspace_id := "00000000-0000-0000-0000-00000000000a"
    stripe_customer_id := some "cus_7"
    domain_lookups_used := 7
    export_credits_used := 3
    api_calls_used := 9
    billing_cycle_start := 50 }

/-- Billing environment whose processing-time clock reads 200. -/
def c7Env : BillingEnv :=
  { price_to_tier := [], subscription_price := fun _ => "", founding_member_cap := 200,
    now := 200 }

/-- An `invoice.paid` event created at time 100 for that customer. -/
def c7Event : StripeEvent :=
  { type := "invoice.paid", data_object := { customer := some "cus_7" }, created := 100 }

/-- Initial state of the invoice-paid scenario. -/
def c7DB : BillingDB := { workspaces := [c7Ws], founding_member_count := 0 }

/-- A `checkout.session.completed` event whose workspace reference is not a
parseable UUID. -/
def c8Event : StripeEvent :=
  { type := "checkout.session.completed"
    data_object := { client_reference_id := some "not-a-uuid" } }

/-- An `invoice.paid` event for a customer id no workspace has. -/
def c8UnknownCustomerEvent : StripeEvent :=
  { type := "invoice.paid", data_object := { customer := some "cus_unknown" } }

/-- Webhook endpoint subscribed only to `domain.created`. -/
def c9Endpoint : WebhookEndpoint :=
  { webhook_id := "00000000-0000-0000-0000-0000000000b1"
    url := "https://example.test/hook"
    secret := "s3cret"
    event_types := some ["domain.created"]
    is_active := true }

/-- Delivery environment holding that endpoint and a transport that would
answer 200 if it were ever called. -/
def c9Env : WebhookEnv :=
  { endpoints := [c9Endpoint]
    http_post := fun _ _ => some 200
    dumps := fun _ => "{}"
    hmac_sha256_hex := fun _ _ => "00"
    delivery_id := "d-1"
    delivered_at := "2026-10-12T00:00:00+00:00" }

/-- Free-tier workspace that has used all 25 monthly lookups. -/
def c10Ws : Workspace :=
  { workspace_id := "00000000-0000-0000-0000-0000000000c1"
    owner_id := "u1"
    tier := "free"
    domain_lookups_used := 25 }

/-- Route state with that workspace and an empty domain table. -/
def c10St : AppState := { workspaces := [c10Ws], domains := [] }

/-- The same workspace with one lookup still free. -/
def c10Ws24 : Workspace := { c10Ws with domain_lookups_used := 24 }

/-- A stub domain row. -/
def c10Row : DomainRow := { domain_id := "d1", domain := "example.co.uk", data := [] }

/-- Route state for the success path: one lookup still free, one domain row. -/
def c10OkSt : AppState := { workspaces := [c10Ws24], domains := [c10Row] }

/-- The per-tier allow-list table of the `ecommerce` field group. -/
def ecommerceTM : TierMap :=
  [("free", some ["platform"]),
   ("starter", some ["platform", "platform_confidence", "product_count_estimate",
                     "category_primary", "currency"]),
   ("professional", Option.none), ("business", Option.none), ("enterprise", Option.none)]

/-- Sample full record: an `ecommerce` blob with a key outside free's
allow-list, and an `intent_layer` blob (hidden at free). -/
def wD : PyDict :=
  [("domain", PyVal.str "example.co.uk"),
   ("ecommerce", PyVal.dict
     [("platform", PyVal.str "shopify"), ("checkout_url", PyVal.str "https://x")]),
   ("intent_layer", PyVal.dict [("commercial_intent_score", PyVal.int 7)])]

/-! ## Theorems -/

/-- C5: for every tier and every used count, `check_lookup_quota` passes iff
the tier's monthly lookup limit is null or still strictly above the used
count; when a non-null limit L satisfies L ≤ used it raises the 429 error
carrying the limit, the used value and the current tier; on the free tier
(limit 25), 24 used passes and 25 used fails with limit 25 and used 25. -/
theorem check_lookup_quota_spec (t : String) (used : Nat) :
    (TierGate.check_lookup_quota (TierGate.init t) used = Except.ok () ↔
      ((TierGate.init t).limits.max_lookups_per_month = Option.none ∨
       ∃ L, (TierGate.init t).limits.max_lookups_per_month = some L ∧ used < L)) ∧
    (∀ L, (TierGate.init t).limits.max_lookups_per_month = some L → L ≤ used →
      TierGate.check_lookup_quota (TierGate.init t) used =
        Except.error { status_code := 429, code := "lookup_quota_exceeded",
                       limit := some L, used := some used,
                       current_tier := some (TierGate.init t).tier }) ∧
    TierGate.check_lookup_quota (TierGate.init "free") 24 = Except.ok () ∧
    TierGate.check_lookup_quota (TierGate.init "free") 25 =
      Except.error { status_code := 429, code := "lookup_quota_exceeded",
                     limit := some 25, used := some 25, current_tier := some "free" } := by
  refine ⟨?_, ?_, rfl, rfl⟩
  · cases h : (TierGate.init t).limits.max_lookups_per_month with
    | none => simp [TierGate.check_lookup_quota, h]
    | some L =>
      simp only [TierGate.check_lookup_quota, h]
      by_cases hle : used ≥ L
      · simp [hle]
        try omega
      · simp [hle]
        try omega
  · intro L hL hle
    simp [TierGate.check_lookup_quota, hL, hle]

/-- Witness for C5: the free tier at 25 used lookups raises the 429 error
with limit 25 and used 25. -/
theorem check_lookup_quota_spec_witness :
    (TierGate.init "free").limits.max_lookups_per_month = some 25 ∧
    25 ≤ 25 ∧
    TierGate.check_lookup_quota (TierGate.init "free") 25 =
      Except.error { status_code := 429, code := "lookup_quota_exceeded",
                     limit := some 25, used := some 25,
                     current_tier := some (TierGate.init "free").tier } :=
  ⟨rfl, by decide, (check_lookup_quota_spec "free" 25).2.1 25 rfl (by decide)⟩

/-- C6: `check_export_credits` raises the 403 feature error whenever the
tier's `can_export_csv` flag is false, regardless of any credit arithmetic;
otherwise it passes iff the credit limit is null or `used + requested` stays
within it, and raises the 429 credit error when a non-null limit is
exceeded. -/
theorem check_export_credits_spec (t : String) (used requested : Nat) :
    ((TierGate.init t).limits.can_export_csv = false →
      TierGate.check_export_credits (TierGate.init t) used requested =
        Except.error { status_code := 403, code := "feature_gated",
                       feature := some "can_export_csv",
                       current_tier := some (TierGate.init t).tier }) ∧
    ((TierGate.init t).limits.can_export_csv = true →
      (TierGate.check_export_credits (TierGate.init t) used requested = Except.ok () ↔
        ((TierGate.init t).limits.max_export_credits_per_month = Option.none ∨
         ∃ L, (TierGate.init t).limits.max_export_credits_per_month = some L ∧
              used + requested ≤ L)) ∧
      (∀ L, (TierGate.init t).limits.max_export_credits_per_month = some L →
        used + requested > L →
        TierGate.check_export_credits (TierGate.init t) used requested =
          Except.error { status_code := 429, code := "export_credits_exhausted",
                         limit := some L, used := some used,
                         current_tier := some (TierGate.init t).tier })) := by
  constructor
  · intro h
    simp [TierGate.check_export_credits, TierGate.require_feature,
          TierLimits.featureFlag, h]
  · intro h
    constructor
    · cases hL : (TierGate.init t).limits.max_export_credits_per_month with
      | none =>
        simp [TierGate.check_export_credits, TierGate.require_feature,
              TierLimits.featureFlag, h, hL]
      | some L =>
        simp only [TierGate.check_export_credits, TierGate.require_feature,
              TierLimits.featureFlag, h, hL]
        by_cases hgt : used + requested > L
        · simp [hgt]
          try omega
        · simp [hgt]
          try omega
    · intro L hL hgt
      simp [TierGate.check_export_credits, TierGate.require_feature,
            TierLimits.featureFlag, h, hL, hgt]

/-- Witness for C6: the free tier (no export capability) fails with the 403
feature error before any credit math; the starter tier (limit 50) fails
with the 429 error at 50 used and 1 requested. -/
theorem check_export_credits_spec_witness :
    (TierGate.init "free").limits.can_export_csv = false ∧
    TierGate.check_export_credits (TierGate.init "free") 0 1 =
      Except.error { status_code := 403, code := "feature_gated",
                     feature := some "can_export_csv",
                     current_tier := some (TierGate.init "free").tier } ∧
    (TierGate.init "starter").limits.can_export_csv = true ∧
    (TierGate.init "starter").limits.max_export_credits_per_month = some 50 ∧
    TierGate.check_export_credits (TierGate.init "starter") 50 1 =
      Except.error { status_code := 429, code := "export_credits_exhausted",
                     limit := some 50, used := some 50,
                     current_tier := some (TierGate.init "starter").tier } :=
  ⟨rfl, (check_export_credits_spec "free" 0 1).1 rfl, rfl, rfl,
   ((check_export_credits_spec "starter" 50 1).2 rfl).2 50 rfl (by decide)⟩

/-- C4: masking with a tier name that is unknown after lower-casing produces
exactly the free-tier projection, and a `TierGate` built from such a name
carries the free tier's limits, so every check uses the free limits. -/
theorem unknown_tier_fail_closed (d : PyDict) (t : String)
    (h : (tierLimitsGet (pyLower t)).isSome = false) :
    mask_domain_by_tier d t = mask_domain_by_tier d "free" ∧
    (TierGate.init t).limits = (TierGate.init "free").limits := by
  have hnorm : tierNorm t = "free" := by
    unfold tierNorm
    simp [h]
  have hfree : tierNorm "free" = "free" := by decide
  constructor
  · unfold mask_domain_by_tier
    rw [hnorm, hfree]
  · have h0 : tierLimitsGet (pyLower t) = Option.none :=
      Option.not_isSome_iff_eq_none.mp (by simp [h])
    simp only [TierGate.init]
    rw [h0]
    rfl

/-- Witness for C4: the unknown tier name `platinum` masks exactly like the
free tier and gates with the free tier's limits. -/
theorem unknown_tier_fail_closed_witness :
    (tierLimitsGet (pyLower "platinum")).isSome = false ∧
    mask_domain_by_tier wD "platinum" = mask_domain_by_tier wD "free" ∧
    (TierGate.init "platinum").limits = (TierGate.init "free").limits :=
  ⟨by decide, (unknown_tier_fail_closed wD "platinum" (by decide)).1,
   (unknown_tier_fail_closed wD "platinum" (by decide)).2⟩

/-- C7 (amended): an `invoice.paid` event whose customer id resolves a
workspace zeroes the three monthly usage counters and sets the workspace's
billing-cycle-start to the current processing time (`datetime.now` when the
handler runs). -/
theorem invoice_paid_resets_counters (env : BillingEnv) (event : StripeEvent)
    (db : BillingDB) (ws : Workspace)
    (htype : event.type = "invoice.paid")
    (hws : db.workspaces.find?
      (fun w => w.stripe_customer_id == event.data_object.customer) = some ws) :
    process_webhook_event env event db =
      Except.ok ({ action := "usage_reset" },
        commitWorkspace db
          { ws with domain_lookups_used := 0, export_credits_used := 0,
                    api_calls_used := 0, billing_cycle_start := env.now }) := by
  simp [process_webhook_event, htype, handle_invoice_paid, hws]

/-- Witness for the amended C7: the concrete invoice-paid scenario resets the
counters and stamps the cycle start with the clock value 200. -/
theorem invoice_paid_resets_counters_witness :
    c7Event.type = "invoice.paid" ∧
    c7DB.workspaces.find?
      (fun w => w.stripe_customer_id == c7Event.data_object.customer) = some c7Ws ∧
    process_webhook_event c7Env c7Event c7DB =
      Except.ok ({ action := "usage_reset" },
        commitWorkspace c7DB
          { c7Ws with domain_lookups_used := 0, export_credits_used := 0,
                      api_calls_used := 0, billing_cycle_start := c7Env.now }) :=
  ⟨rfl, rfl, invoice_paid_resets_counters c7Env c7Event c7DB c7Ws rfl rfl⟩

/-- Counterexample to C7 as stated: an `invoice.paid` event created at time
100, processed when the clock reads 200, stamps the workspace with 200 — the
processing time, not the event's time. -/
theorem invoice_paid_uses_processing_time :
    process_webhook_event c7Env c7Event c7DB =
      Except.ok ({ action := "usage_reset" },
        { workspaces := [{ c7Ws with domain_lookups_used := 0, export_credits_used := 0,
                                     api_calls_used := 0, billing_cycle_start := 200 }],
          founding_member_count := 0 }) ∧
    c7Event.created = 100 ∧ c7Env.now = 200 ∧ (200 : Int) ≠ 100 :=
  ⟨rfl, rfl, rfl, by decide⟩

/-- C1: replaying the founding-member checkout event is accepted both times
and leaves the workspace table unchanged, but increments the global
founding-member counter on each application — from 0 to 1 and then to 2,
violating the claimed at-most-once increment. -/
theorem checkout_replay_double_increments :
    isOkB (process_webhook_event c1Env c1Event c1DB) = true ∧
    isOkB (process_webhook_event c1Env c1Event (c1Step c1DB)) = true ∧
    (c1Step c1DB).founding_member_count = 1 ∧
    (c1Step (c1Step c1DB)).founding_member_count = 2 ∧
    (c1Step (c1Step c1DB)).workspaces = (c1Step c1DB).workspaces :=
  ⟨rfl, rfl, rfl, rfl, by decide⟩

/-- C8: a checkout event whose workspace reference is not a parseable UUID
makes the handler raise `ValueError` instead of returning a skip, while an
`invoice.paid` event for an unknown customer id is skipped with the state
untouched. -/
theorem malformed_workspace_id_raises :
    process_webhook_event c1Env c8Event c1DB = Except.error "ValueError" ∧
    process_webhook_event c1Env c8UnknownCustomerEvent c1DB =
      Except.ok ({ action := "skipped", reason := some "workspace_not_found" }, c1DB) :=
  ⟨rfl, rfl⟩

/-- C9: delivery is skipped with no HTTP request, no retry and no error when
the endpoint does not exist, when it is inactive, and when its non-empty
subscription set does not contain the delivered event type. -/
theorem deliver_webhook_skips (env : WebhookEnv) (webhook_id event_type : String)
    (payload : PyVal) (uid : String) (huid : pyUUID webhook_id = some uid) :
    (env.endpoints.find? (fun e => e.webhook_id == uid) = Option.none →
      deliver_webhook env webhook_id event_type payload =
        (DeliveryOutcome.result { status := "skipped", reason := some "endpoint_not_found" },
         [])) ∧
    (∀ ep, env.endpoints.find? (fun e => e.webhook_id == uid) = some ep →
      ep.is_active = false →
      deliver_webhook env webhook_id event_type payload =
        (DeliveryOutcome.result { status := "skipped", reason := some "endpoint_inactive" },
         [])) ∧
    (∀ ep, env.endpoints.find? (fun e => e.webhook_id == uid) = some ep →
      ep.is_active = true →
      ep.event_types.getD [] ≠ [] →
      ¬ event_type ∈ ep.event_types.getD [] →
      deliver_webhook env webhook_id event_type payload =
        (DeliveryOutcome.result
          { status := "skipped", reason := some "event_type_not_subscribed" }, [])) := by
  refine ⟨?_, ?_, ?_⟩
  · intro h
    simp [deliver_webhook, huid, h]
  · intro ep hep hact
    simp [deliver_webhook, huid, hep, hact]
  · intro ep hep hact hne hnm
    have hemp : (ep.event_types.getD []).isEmpty = false := by
      cases hev : ep.event_types.getD [] with
      | nil => exact absurd hev hne
      | cons a l => simp [List.isEmpty]
    have hcon : (ep.event_types.getD []).contains event_type = false := by
      rw [Bool.eq_false_iff]
      intro hc
      obtain ⟨x, hx1, hx2⟩ := List.contains_iff_exists_mem_beq.mp hc
      exact hnm (by rw [eq_of_beq hx2]; exact hx1)
    simp [deliver_webhook, huid, hep, hact, hemp, hcon]
    intro hmem
    exact absurd hmem hnm

/-- Witness for C9: dispatching `domain.updated` to an endpoint subscribed
only to `domain.created` yields the not-subscribed skip and performs no
HTTP call. -/
theorem deliver_webhook_skips_witness :
    pyUUID "00000000-0000-0000-0000-0000000000b1" =
      some "00000000-0000-0000-0000-0000000000b1" ∧
    c9Env.endpoints.find?
      (fun e => e.webhook_id == "00000000-0000-0000-0000-0000000000b1") =
      some c9Endpoint ∧
    c9Endpoint.is_active = true ∧
    c9Endpoint.event_types.getD [] ≠ [] ∧
    ¬ "domain.updated" ∈ c9Endpoint.event_types.getD [] ∧
    deliver_webhook c9Env "00000000-0000-0000-0000-0000000000b1" "domain.updated"
        PyVal.none =
      (DeliveryOutcome.result
        { status := "skipped", reason := some "event_type_not_subscribed" }, []) :=
  ⟨rfl, rfl, rfl, by decide, by decide,
   (deliver_webhook_skips c9Env "00000000-0000-0000-0000-0000000000b1" "domain.updated"
      PyVal.none "00000000-0000-0000-0000-0000000000b1" rfl).2.2
     c9Endpoint rfl rfl (by decide) (by decide)⟩

/-- Every HTTPException path of the common lookup body leaves the persisted
state untouched. -/
theorem ldc_error_state (st : AppState) (u : String)
    (f : List DomainRow → Option DomainRow) :
    ∀ e st2, lookupDomainCommon st u f = (HandlerOut.httpError e, st2) → st2 = st := by
  intro e st2 h
  simp only [lookupDomainCommon] at h
  split at h
  · cases h
    rfl
  · split at h
    · cases h
      rfl
    · split at h
      · cases h
      · cases h

/-- With the quota check passing and no matching domain, the common lookup
body raises the 404 and keeps the state. -/
theorem ldc_404 (st : AppState) (u : String) (f : List DomainRow → Option DomainRow)
    (ws : Workspace) (hws : get_caller_workspace st u = some ws)
    (hq : TierGate.check_lookup_quota (TierGate.init ws.tier) ws.domain_lookups_used =
      Except.ok ())
    (hf : f st.domains = Option.none) :
    lookupDomainCommon st u f = (HandlerOut.httpError domainNotFound, st) := by
  simp only [lookupDomainCommon, hws, hq, hf]

/-- With the quota check passing and a domain found, the common lookup body
increments the caller's lookup counter by exactly one. -/
theorem ldc_bump (st : AppState) (u : String) (f : List DomainRow → Option DomainRow)
    (ws : Workspace) (dom : DomainRow) (hws : get_caller_workspace st u = some ws)
    (hq : TierGate.check_lookup_quota (TierGate.init ws.tier) ws.domain_lookups_used =
      Except.ok ())
    (hf : f st.domains = some dom) :
    (lookupDomainCommon st u f).2 = bumpLookups st ws := by
  simp only [lookupDomainCommon, hws, hq, hf]
  split <;> rfl

/-- C10 (amended): in both lookup routes, every HTTPException (quota 429 or
404) leaves the workspace state unchanged; with the quota check passing and
the domain absent the route raises the 404 without mutation; and the lookup
counter is bumped, by exactly one, precisely when the quota check passes and
the domain row is found. -/
theorem domain_lookup_counter_spec (st : AppState) (u domain_id domain_name : String) :
    (∀ e st2, get_domain st u domain_id = (HandlerOut.httpError e, st2) → st2 = st) ∧
    (∀ ws, get_caller_workspace st u = some ws →
      TierGate.check_lookup_quota (TierGate.init ws.tier) ws.domain_lookups_used =
        Except.ok () →
      st.domains.find? (fun r => r.domain_id == domain_id) = Option.none →
      get_domain st u domain_id = (HandlerOut.httpError domainNotFound, st)) ∧
    (∀ ws dom, get_caller_workspace st u = some ws →
      TierGate.check_lookup_quota (TierGate.init ws.tier) ws.domain_lookups_used =
        Except.ok () →
      st.domains.find? (fun r => r.domain_id == domain_id) = some dom →
      (get_domain st u domain_id).2 = bumpLookups st ws) ∧
    (∀ e st2, get_domain_by_name st u domain_name = (HandlerOut.httpError e, st2) →
      st2 = st) ∧
    (∀ ws, get_caller_workspace st u = some ws →
      TierGate.check_lookup_quota (TierGate.init ws.tier) ws.domain_lookups_used =
        Except.ok () →
      st.domains.find? (fun r => r.domain == pyLower domain_name) = Option.none →
      get_domain_by_name st u domain_name = (HandlerOut.httpError domainNotFound, st)) ∧
    (∀ ws dom, get_caller_workspace st u = some ws →
      TierGate.check_lookup_quota (TierGate.init ws.tier) ws.domain_lookups_used =
        Except.ok () →
      st.domains.find? (fun r => r.domain == pyLower domain_name) = some dom →
      (get_domain_by_name st u domain_name).2 = bumpLookups st ws) :=
  ⟨fun e st2 h => ldc_error_state st u _ e st2 h,
   fun ws hws hq hf => ldc_404 st u _ ws hws hq hf,
   fun ws dom hws hq hf => ldc_bump st u _ ws dom hws hq hf,
   fun e st2 h => ldc_error_state st u _ e st2 h,
   fun ws hws hq hf => ldc_404 st u _ ws hws hq hf,
   fun ws dom hws hq hf => ldc_bump st u _ ws dom hws hq hf⟩

/-- Witness for the amended C10: with one lookup left and the domain present,
fetching it bumps the counter from 24 to 25. -/
theorem domain_lookup_counter_spec_witness :
    get_caller_workspace c10OkSt "u1" = some c10Ws24 ∧
    TierGate.check_lookup_quota (TierGate.init c10Ws24.tier)
      c10Ws24.domain_lookups_used = Except.ok () ∧
    c10OkSt.domains.find? (fun r => r.domain_id == "d1") = some c10Row ∧
    (get_domain c10OkSt "u1" "d1").2 = bumpLookups c10OkSt c10Ws24 :=
  ⟨rfl, rfl, rfl,
   (domain_lookup_counter_spec c10OkSt "u1" "d1" "x").2.2.1 c10Ws24 c10Row rfl rfl rfl⟩

/-- Counterexample to C10 as stated: a free-tier caller with 25 used lookups
requesting a nonexistent domain receives the 429 quota error, not a 404 —
though the counter is indeed unchanged. -/
theorem quota_exceeded_hides_404 :
    c10St.domains.find? (fun r => r.domain_id == "d1") = Option.none ∧
    (get_domain c10St "u1" "d1").1 =
      HandlerOut.httpError { status_code := 429, code := "lookup_quota_exceeded",
                             limit := some 25, used := some 25,
                             current_tier := some "free" } ∧
    (get_domain c10St "u1" "d1").2 = c10St ∧
    (429 : Nat) ≠ 404 :=
  ⟨rfl, rfl, rfl, by decide⟩

/-- Guarding a non-emptiness test in front of `List.any` changes nothing:
a successful `any` already forces the list to be non-empty. -/
theorem bool_and_isEmpty_any (items : List (String × PyVal)) (p : (String × PyVal) → Bool) :
    (!items.isEmpty && items.any p) = items.any p := by
  cases items with
  | nil => rfl
  | cons a l => simp [List.isEmpty]

/-- On a well-typed field-group value, one loop iteration of the masking
engine never raises and contributes exactly the entries described by
`maskGroupF`. -/
theorem maskGroup_wf (d : PyDict) (t : String) (gp : String × TierMap)
    (h : isNoneOrDict (pyGet d gp.1) = true) :
    maskGroup d t gp = some (maskGroupF d t gp) := by
  unfold maskGroup maskGroupF hiddenAt
  by_cases hA : t = "free" ∧ gp.1 ∈ HIDDEN_FOR_FREE
  · simp [hA]
  · by_cases hB : t = "starter" ∧ gp.1 ∈ HIDDEN_FOR_STARTER
    · simp [hA, hB]
    · simp only [hA, hB, if_false, or_self, or_false, false_or, if_neg]
      cases hks : tmGet gp.2 t with
      | none => simp [hks, hA, hB]
      | some ks =>
        cases hblob : pyGet d gp.1 with
        | none =>
          simp [hks, hblob, hA, hB, filter_jsonb, allowedProjection, keyOutside,
                PyVal.truthy]
        | dict items =>
          simp [hks, hblob, hA, hB, filter_jsonb, allowedProjection, keyOutside,
                PyVal.truthy]
          rw [bool_and_isEmpty_any]
        | bool b => rw [hblob] at h; cases h
        | int n => rw [hblob] at h; cases h
        | str s => rw [hblob] at h; cases h
        | list es => rw [hblob] at h; cases h

/-- On a well-typed record the group loop never raises and produces the
concatenation of the per-group entries. -/
theorem maskGroups_wf (d : PyDict) (t : String) (gs : List (String × TierMap))
    (h : ∀ gp ∈ gs, isNoneOrDict (pyGet d gp.1) = true) :
    maskGroups d t gs = some (gs.flatMap (maskGroupF d t)) := by
  induction gs with
  | nil => rfl
  | cons gp rest ih =>
    rw [maskGroups, maskGroup_wf d t gp (h gp (by simp)),
        ih (fun x hx => h x (by simp [hx]))]
    rfl

/-- On a well-typed record, masking succeeds and its output is the
always-visible scalars followed by the per-group entries. -/
theorem mask_wf (d : PyDict) (t : String) (h : WellTypedRecord d = true) :
    mask_domain_by_tier d t =
      some (ALWAYS_VISIBLE.map (fun k => (k, pyGet d k)) ++
            FIELD_GATING.flatMap (maskGroupF d (tierNorm t))) := by
  simp only [mask_domain_by_tier]
  rw [maskGroups_wf d (tierNorm t) FIELD_GATING
        (fun gp hgp => List.all_eq_true.mp h gp hgp)]

/-- Dict lookup distributes over concatenation, first hit wins. -/
theorem findPy_append (xs ys : PyDict) (k : String) :
    findPy (xs ++ ys) k = (findPy xs k).or (findPy ys k) := by
  unfold findPy
  rw [List.find?_append]
  cases List.find? (fun kv => kv.1 == k) xs <;> simp

/-- A key held by no entry is absent. -/
theorem findPy_eq_none (xs : PyDict) (k : String) (h : ∀ p ∈ xs, p.1 ≠ k) :
    findPy xs k = Option.none := by
  unfold findPy
  rw [List.find?_eq_none.mpr]
  · rfl
  · intro x hx
    simp only [beq_iff_eq]
    exact h x hx

/-- Every entry a field group contributes is keyed by the group's name or by
its companion gated flag. -/
theorem keys_maskGroupF (d : PyDict) (t : String) (gp : String × TierMap)
    (p : String × PyVal) (hp : p ∈ maskGroupF d t gp) :
    p.1 = gp.1 ∨ p.1 = gp.1 ++ "_gated" := by
  simp only [maskGroupF] at hp
  by_cases hH : hiddenAt t gp.1 = true
  · rw [if_pos hH] at hp
    rcases List.mem_cons.mp hp with h1 | h1
    · rw [h1]
      exact Or.inl rfl
    · rcases List.mem_cons.mp h1 with h2 | h2
      · rw [h2]
        exact Or.inr rfl
      · cases h2
  · rw [if_neg hH] at hp
    cases hks : tmGet gp.2 t with
    | none =>
      rw [hks] at hp
      rcases List.mem_cons.mp hp with h1 | h1
      · rw [h1]
        exact Or.inl rfl
      · cases h1
    | some ks =>
      rw [hks] at hp
      rcases List.mem_cons.mp hp with h1 | h1
      · rw [h1]
        exact Or.inl rfl
      · by_cases hO : keyOutside (pyGet d gp.1) ks = true
        · rw [if_pos hO] at h1
          rcases List.mem_cons.mp h1 with h2 | h2
          · rw [h2]
            exact Or.inr rfl
          · cases h2
        · rw [if_neg hO] at h1
          cases h1

/-- The group names of the gating table are pairwise distinct. -/
theorem groupNames_nodup : (FIELD_GATING.map (fun gp => gp.1)).Nodup := by decide

/-- No group name collides with another group's gated-flag name, and gated
names of distinct groups are distinct. -/
theorem groupNames_gated_free :
    ∀ a ∈ FIELD_GATING.map (fun gp => gp.1), ∀ b ∈ FIELD_GATING.map (fun gp => gp.1),
      a ≠ b ++ "_gated" ∧ (a ≠ b → a ++ "_gated" ≠ b ++ "_gated") := by decide

/-- The always-visible scalar names avoid every group name and gated-flag
name. -/
theorem always_visible_fresh :
    ∀ a ∈ ALWAYS_VISIBLE, ∀ b ∈ FIELD_GATING.map (fun gp => gp.1),
      a ≠ b ∧ a ≠ b ++ "_gated" := by decide

/-- No group name equals its own gated-flag name. -/
theorem groupNames_self_ne_gated :
    ∀ a ∈ FIELD_GATING.map (fun gp => gp.1), a ≠ a ++ "_gated" := by decide

/-- Tier normalisation fixes each catalogued tier name. -/
theorem tierNorm_known (t : String) (ht : t ∈ knownTierNames) : tierNorm t = t := by
  fin_cases ht <;> rfl

/-- Looking up a dict entry keyed by the head wins immediately. -/
theorem findPy_cons_self (k : String) (v : PyVal) (rest : PyDict) :
    findPy ((k, v) :: rest) k = some v := by
  simp [findPy]

/-- A head entry with a different key is skipped. -/
theorem findPy_cons_ne (k1 k : String) (v : PyVal) (rest : PyDict) (h : k1 ≠ k) :
    findPy ((k1, v) :: rest) k = findPy rest k := by
  unfold findPy
  rw [List.find?_cons_of_neg]
  simp [h]

/-- Looking up a group's name or gated flag in the concatenated group
entries reduces to looking it up in that group's own entries. -/
theorem findPy_flatMap_groups (d : PyDict) (t : String) (gs : List (String × TierMap))
    (g : String) (tm : TierMap) (hmem : (g, tm) ∈ gs)
    (hnd : (gs.map (fun gp => gp.1)).Nodup)
    (hgg : ∀ a ∈ gs.map (fun gp => gp.1), ∀ b ∈ gs.map (fun gp => gp.1),
      a ≠ b ++ "_gated" ∧ (a ≠ b → a ++ "_gated" ≠ b ++ "_gated"))
    (k : String) (hk : k = g ∨ k = g ++ "_gated") :
    findPy (gs.flatMap (maskGroupF d t)) k = findPy (maskGroupF d t (g, tm)) k := by
  induction gs with
  | nil => cases hmem
  | cons gp rest ih =>
    rw [List.flatMap_cons, findPy_append]
    have hndc := List.nodup_cons.mp
      (show (gp.1 :: rest.map (fun x => x.1)).Nodup from hnd)
    rcases List.mem_cons.mp hmem with hhead | htail
    · have hg1 : gp.1 = g := by rw [← hhead]
      have hrest : findPy (rest.flatMap (maskGroupF d t)) k = Option.none := by
        apply findPy_eq_none
        intro p hp
        obtain ⟨gp2, hgp2, hpg⟩ := List.mem_flatMap.mp hp
        have hn2 : gp2.1 ∈ (gp :: rest).map (fun x => x.1) :=
          List.mem_map_of_mem (fun x => x.1) (List.mem_cons_of_mem gp hgp2)
        have hn1 : gp.1 ∈ (gp :: rest).map (fun x => x.1) :=
          List.mem_map_of_mem (fun x => x.1) (List.mem_cons_self gp rest)
        have hne : gp2.1 ≠ gp.1 := by
          intro he
          exact hndc.1 (he ▸ List.mem_map_of_mem (fun x => x.1) hgp2)
        rcases keys_maskGroupF d t gp2 p hpg with hp1 | hp1 <;>
          rcases hk with hk1 | hk1 <;> rw [hp1, hk1, ← hg1]
        · exact hne
        · exact (hgg gp2.1 hn2 gp.1 hn1).1
        · intro he
          exact (hgg gp.1 hn1 gp2.1 hn2).1 he.symm
        · exact (hgg gp2.1 hn2 gp.1 hn1).2 hne
      rw [hrest, ← hhead]
      cases hfp : findPy (maskGroupF d t (g, tm)) k <;> simp [Option.or]
    · have hgmem : g ∈ rest.map (fun x => x.1) :=
        List.mem_map_of_mem (fun x => x.1) htail
      have hn1 : gp.1 ∈ (gp :: rest).map (fun x => x.1) :=
        List.mem_map_of_mem (fun x => x.1) (List.mem_cons_self gp rest)
      have hng : g ∈ (gp :: rest).map (fun x => x.1) :=
        List.mem_cons_of_mem gp.1 hgmem
      have hne : gp.1 ≠ g := by
        intro he
        exact hndc.1 (he ▸ hgmem)
      have hhd : findPy (maskGroupF d t gp) k = Option.none := by
        apply findPy_eq_none
        intro p hp
        rcases keys_maskGroupF d t gp p hp with hp1 | hp1 <;>
          rcases hk with hk1 | hk1 <;> rw [hp1, hk1]
        · exact hne
        · exact (hgg gp.1 hn1 g hng).1
        · intro he
          exact (hgg g hng gp.1 hn1).1 he.symm
        · exact (hgg gp.1 hn1 g hng).2 hne
      rw [hhd, Option.none_or]
      refine ih htail hndc.2 ?_
      intro a ha b hb
      exact hgg a (List.mem_cons_of_mem gp.1 ha) b (List.mem_cons_of_mem gp.1 hb)

/-- Looking up a group's name or gated flag in the full mask output reduces
to that group's own entries: the always-visible prefix and every other group
are transparent for these keys. -/
theorem findPy_mask_eq (d : PyDict) (t : String) (g : String) (tm : TierMap)
    (hg : (g, tm) ∈ FIELD_GATING) (k : String) (hk : k = g ∨ k = g ++ "_gated") :
    findPy ((ALWAYS_VISIBLE.map (fun k2 => (k2, pyGet d k2))) ++
            FIELD_GATING.flatMap (maskGroupF d (tierNorm t))) k =
      findPy (maskGroupF d (tierNorm t) (g, tm)) k := by
  rw [findPy_append]
  have hgn : g ∈ FIELD_GATING.map (fun gp => gp.1) :=
    List.mem_map_of_mem (fun gp => gp.1) hg
  have halways : findPy (ALWAYS_VISIBLE.map (fun k2 => (k2, pyGet d k2))) k =
      Option.none := by
    apply findPy_eq_none
    intro p hp
    obtain ⟨a, ha, hpa⟩ := List.mem_map.mp hp
    have hfacts := always_visible_fresh a ha g hgn
    have hpa1 : p.1 = a := by rw [← hpa]
    rcases hk with hk1 | hk1 <;> rw [hpa1, hk1]
    · exact hfacts.1
    · exact hfacts.2
  rw [halways, Option.none_or]
  exact findPy_flatMap_groups d (tierNorm t) FIELD_GATING g tm hg groupNames_nodup
    groupNames_gated_free k hk

/-- C2: for every well-typed record and every known tier, each declared
field group is handled by exactly one of three cases — hidden: the group is
output as null with its gated flag set; allow-listed: the group is output as
the projection to allow-listed sub-keys present in the source blob, with
the gated flag present iff the blob holds a key outside the allow-list;
fully visible: the blob passes through unchanged with no gated flag. -/
theorem mask_group_three_cases (d : PyDict) (t : String) (g : String) (tm : TierMap)
    (ht : t ∈ knownTierNames) (hg : (g, tm) ∈ FIELD_GATING)
    (hwf : WellTypedRecord d = true) :
    ∃ out, mask_domain_by_tier d t = some out ∧
      (hiddenAt t g = true →
        findPy out g = some PyVal.none ∧
        findPy out (g ++ "_gated") = some (PyVal.bool true)) ∧
      (hiddenAt t g = false → ∀ ks, tmGet tm t = some ks →
        findPy out g = some (allowedProjection (pyGet d g) ks) ∧
        (keyOutside (pyGet d g) ks = true →
          findPy out (g ++ "_gated") = some (PyVal.bool true)) ∧
        (keyOutside (pyGet d g) ks = false →
          findPy out (g ++ "_gated") = Option.none)) ∧
      (hiddenAt t g = false → tmGet tm t = Option.none →
        findPy out g = some (pyGet d g) ∧
        findPy out (g ++ "_gated") = Option.none) := by
  have htn := tierNorm_known t ht
  have hselfg : g ≠ g ++ "_gated" :=
    groupNames_self_ne_gated g (List.mem_map_of_mem (fun gp => gp.1) hg)
  refine ⟨_, mask_wf d t hwf, ?_, ?_, ?_⟩
  · intro hH
    rw [findPy_mask_eq d t g tm hg g (Or.inl rfl),
        findPy_mask_eq d t g tm hg (g ++ "_gated") (Or.inr rfl), htn]
    simp only [maskGroupF, hH, if_true]
    constructor
    · exact findPy_cons_self g PyVal.none _
    · rw [findPy_cons_ne g (g ++ "_gated") PyVal.none _ hselfg]
      exact findPy_cons_self (g ++ "_gated") (PyVal.bool true) []
  · intro hH ks hks
    rw [findPy_mask_eq d t g tm hg g (Or.inl rfl),
        findPy_mask_eq d t g tm hg (g ++ "_gated") (Or.inr rfl), htn]
    simp only [maskGroupF, hH, hks, Bool.false_eq_true, if_false]
    refine ⟨findPy_cons_self g _ _, ?_, ?_⟩
    · intro hO
      rw [findPy_cons_ne g (g ++ "_gated") _ _ hselfg]
      simp only [hO, if_true]
      exact findPy_cons_self (g ++ "_gated") (PyVal.bool true) []
    · intro hO
      rw [findPy_cons_ne g (g ++ "_gated") _ _ hselfg]
      simp only [hO, Bool.false_eq_true, if_false]
      rfl
  · intro hH hks
    rw [findPy_mask_eq d t g tm hg g (Or.inl rfl),
        findPy_mask_eq d t g tm hg (g ++ "_gated") (Or.inr rfl), htn]
    simp only [maskGroupF, hH, hks, Bool.false_eq_true, if_false]
    constructor
    · exact findPy_cons_self g _ _
    · rw [findPy_cons_ne g (g ++ "_gated") _ _ hselfg]
      rfl

/-- Witness for C2: at the free tier, the `ecommerce` group of the sample
record is projected to its allow-list with the gated flag set, per the
allow-list case of the theorem. -/
theorem mask_group_three_cases_witness :
    ("free" ∈ knownTierNames) ∧
    (("ecommerce", ecommerceTM) ∈ FIELD_GATING) ∧
    WellTypedRecord wD = true ∧
    (∃ out, mask_domain_by_tier wD "free" = some out ∧
      (hiddenAt "free" "ecommerce" = true →
        findPy out "ecommerce" = some PyVal.none ∧
        findPy out ("ecommerce" ++ "_gated") = some (PyVal.bool true)) ∧
      (hiddenAt "free" "ecommerce" = false → ∀ ks, tmGet ecommerceTM "free" = some ks →
        findPy out "ecommerce" = some (allowedProjection (pyGet wD "ecommerce") ks) ∧
        (keyOutside (pyGet wD "ecommerce") ks = true →
          findPy out ("ecommerce" ++ "_gated") = some (PyVal.bool true)) ∧
        (keyOutside (pyGet wD "ecommerce") ks = false →
          findPy out ("ecommerce" ++ "_gated") = Option.none)) ∧
      (hiddenAt "free" "ecommerce" = false → tmGet ecommerceTM "free" = Option.none →
        findPy out "ecommerce" = some (pyGet wD "ecommerce") ∧
        findPy out ("ecommerce" ++ "_gated") = Option.none)) :=
  ⟨by decide, by decide, by decide,
   mask_group_three_cases wD "free" "ecommerce" ecommerceTM (by decide) (by decide)
     (by decide)⟩

/-- C3: for every well-typed record and every tier string, each output key
is an always-visible scalar, a declared group name, or a declared group's
gated flag; allow-listed groups project to a sub-dict whose keys lie in the
allow-list; and any key outside the declared vocabulary — in particular any
undeclared input key — is absent from the output. -/
theorem mask_output_keys (d : PyDict) (t : String) (hwf : WellTypedRecord d = true) :
    ∃ out, mask_domain_by_tier d t = some out ∧
      (∀ p ∈ out, p.1 ∈ ALWAYS_VISIBLE ∨
        ∃ g, g ∈ FIELD_GATING.map (fun gp => gp.1) ∧
          (p.1 = g ∨ p.1 = g ++ "_gated")) ∧
      (∀ g tm ks, (g, tm) ∈ FIELD_GATING → hiddenAt (tierNorm t) g = false →
        tmGet tm (tierNorm t) = some ks →
        ∀ items, findPy out g = some (PyVal.dict items) → ∀ p ∈ items, p.1 ∈ ks) ∧
      (∀ k, k ∉ ALWAYS_VISIBLE →
        (∀ g ∈ FIELD_GATING.map (fun gp => gp.1), k ≠ g ∧ k ≠ g ++ "_gated") →
        findPy out k = Option.none) := by
  refine ⟨_, mask_wf d t hwf, ?_, ?_, ?_⟩
  · intro p hp
    rcases List.mem_append.mp hp with h1 | h1
    · obtain ⟨a, ha, hpa⟩ := List.mem_map.mp h1
      refine Or.inl ?_
      have hpa1 : p.1 = a := by rw [← hpa]
      rw [hpa1]
      exact ha
    · obtain ⟨gp, hgp, hpg⟩ := List.mem_flatMap.mp h1
      exact Or.inr ⟨gp.1, List.mem_map_of_mem (fun x => x.1) hgp,
        keys_maskGroupF d (tierNorm t) gp p hpg⟩
  · intro g tm ks hg hH hks items hfind p hp
    rw [findPy_mask_eq d t g tm hg g (Or.inl rfl)] at hfind
    simp only [maskGroupF, hH, hks, Bool.false_eq_true, if_false] at hfind
    rw [findPy_cons_self] at hfind
    have hproj : allowedProjection (pyGet d g) ks = PyVal.dict items :=
      Option.some.inj hfind
    cases hblob : pyGet d g with
    | dict items0 =>
      rw [hblob] at hproj
      simp only [allowedProjection] at hproj
      have hitems : items = items0.filter (fun kv => ks.contains kv.1) :=
        (PyVal.dict.inj hproj).symm
      rw [hitems] at hp
      have hcont := (List.mem_filter.mp hp).2
      obtain ⟨x, hx1, hx2⟩ := List.contains_iff_exists_mem_beq.mp hcont
      rw [eq_of_beq hx2]
      exact hx1
    | none => rw [hblob] at hproj; cases hproj
    | bool b => rw [hblob] at hproj; cases hproj
    | int n => rw [hblob] at hproj; cases hproj
    | str s => rw [hblob] at hproj; cases hproj
    | list es => rw [hblob] at hproj; cases hproj
  · intro k hka hkg
    apply findPy_eq_none
    intro p hp
    rcases List.mem_append.mp hp with h1 | h1
    · obtain ⟨a, ha, hpa⟩ := List.mem_map.mp h1
      have hpa1 : p.1 = a := by rw [← hpa]
      intro he
      exact hka (by rw [← he, hpa1]; exact ha)
    · obtain ⟨gp, hgp, hpg⟩ := List.mem_flatMap.mp h1
      have hkgp := hkg gp.1 (List.mem_map_of_mem (fun x => x.1) hgp)
      rcases keys_maskGroupF d (tierNorm t) gp p hpg with h2 | h2 <;> rw [h2]
      · exact fun he => hkgp.1 he.symm
      · exact fun he => hkgp.2 he.symm

/-- Witness for C3: the sample record masked at the free tier satisfies the
key-containment properties. -/
theorem mask_output_keys_witness :
    WellTypedRecord wD = true ∧
    (∃ out, mask_domain_by_tier wD "free" = some out ∧
      (∀ p ∈ out, p.1 ∈ ALWAYS_VISIBLE ∨
        ∃ g, g ∈ FIELD_GATING.map (fun gp => gp.1) ∧
          (p.1 = g ∨ p.1 = g ++ "_gated")) ∧
      (∀ g tm ks, (g, tm) ∈ FIELD_GATING → hiddenAt (tierNorm "free") g = false →
        tmGet tm (tierNorm "free") = some ks →
        ∀ items, findPy out g = some (PyVal.dict items) → ∀ p ∈ items, p.1 ∈ ks) ∧
      (∀ k, k ∉ ALWAYS_VISIBLE →
        (∀ g ∈ FIELD_GATING.map (fun gp => gp.1), k ≠ g ∧ k ≠ g ++ "_gated") →
        findPy out k = Option.none)) :=
  ⟨by decide, mask_output_keys wD "free" (by decide)⟩

end CartoGraph
